import Mathlib

/-!
# RainyDesk desktop-integration engine: verification of spec claims

Shallow embedding of the native supervisory layer of RainyDesk
(`src-tauri/src`): virtual-desktop geometry (`commands.rs::get_virtual_desktop`),
surface-health heartbeats (`commands.rs::heartbeat`), foreign-window
classification (`window_detector.rs::enum_window_callback`), panel clamping
(`window_mgmt.rs::clamp_panel_to_work_area`), monitor snapshots and work-area
fallback (`platform.rs`), and URL opening (`commands.rs::open_url`).

Machine integers are embedded as `Int`/`Nat` (with casts noted where the Rust
code casts), `f64` scale factors as `ℚ` with exact arithmetic, and OS queries
as explicit `Option`/`Except` inputs.
-/

namespace RainyDesk

/-- Round half away from zero, the rounding mode of Rust's `f64::round`,
used by the `to_logical` closures in `get_virtual_desktop` and modelled
here over `ℚ`.  Mathlib's `round` rounds half up, which agrees on
non-negative inputs; negative inputs are routed through negation. -/
def rha (q : ℚ) : ℤ := if q < 0 then -(round (-q)) else round q

/-- Truncation toward zero, the semantics of Rust's `as i32` cast from `f64`. -/
def truncQ (q : ℚ) : ℤ := if q < 0 then ⌈q⌉ else ⌊q⌋

/-- Rust `str::starts_with`, over the character sequence. -/
def strStartsWith (s p : String) : Bool := p.data.isPrefixOf s.data

/-- Rust `str::contains` for a literal pattern, over the character sequence. -/
def strContains (s p : String) : Bool := s.data.tails.any (fun t => p.data.isPrefixOf t)

theorem round_mono {a b : ℚ} (h : a ≤ b) : round a ≤ round b := by
  rw [round_eq, round_eq]
  exact Int.floor_le_floor (by linarith)

theorem rha_le (q : ℚ) : (rha q : ℚ) ≤ q + 1/2 := by
  unfold rha
  split
  · push_cast
    have := sub_half_lt_round (-q)
    linarith
  · exact round_le_add_half q

theorem rha_ge (q : ℚ) : q - 1/2 ≤ (rha q : ℚ) := by
  unfold rha
  split
  · push_cast
    have := round_le_add_half (-q)
    linarith
  · have := sub_half_lt_round q
    linarith

theorem rha_mono {a b : ℚ} (h : a ≤ b) : rha a ≤ rha b := by
  unfold rha
  split <;> split
  · have : round (-b) ≤ round (-a) := round_mono (by linarith)
    omega
  · rename_i ha hb
    have h1 : round (-a) ≥ 0 := by
      have : round (0 : ℚ) ≤ round (-a) := round_mono (by linarith)
      simpa using this
    have h2 : round b ≥ 0 := by
      have : round (0 : ℚ) ≤ round b := round_mono (by linarith)
      simpa using this
    omega
  · rename_i ha hb
    exact absurd (lt_of_le_of_lt h hb) ha
  · exact round_mono h

theorem rha_eq_of {q : ℚ} {n : ℤ} (h1 : (n : ℚ) - 1/2 < q) (h2 : q < (n : ℚ) + 1/2) :
    rha q = n := by
  have hl : ((n : ℤ) : ℚ) - 1 < (rha q : ℚ) := by
    have := rha_ge q
    linarith
  have hr : (rha q : ℚ) < ((n : ℤ) : ℚ) + 1 := by
    have := rha_le q
    linarith
  have hl2 : n - 1 < rha q := by exact_mod_cast hl
  have hr2 : rha q < n + 1 := by exact_mod_cast hr
  omega

theorem rha_intCast (n : ℤ) : rha ((n : ℤ) : ℚ) = n := by
  apply rha_eq_of <;> linarith

/-! ## Data model (`types.rs`, `window_detector.rs`)

A `Rect` is a Win32 `RECT` (left/top/right/bottom, signed).  `BoundsB` is
`types.rs::Bounds` (position signed, size unsigned).  A `Monitor` models one
attached monitor as the Tauri monitor API and the OS deliver it: position and
size, `f64` scale factor (as `ℚ`), the result of the OS work-area query
(`none` = `GetMonitorInfoW` failed), and the refresh rate. -/

structure Rect where
  left : ℤ
  top : ℤ
  right : ℤ
  bottom : ℤ
deriving DecidableEq, Repr

structure BoundsB where
  x : ℤ
  y : ℤ
  width : ℕ
  height : ℕ
deriving DecidableEq, Repr

structure Monitor where
  x : ℤ
  y : ℤ
  width : ℕ
  height : ℕ
  scale : ℚ
  workQuery : Option Rect
  refresh : ℕ
deriving DecidableEq, Repr

/-- `types.rs::MonitorRegion`.  The Rust struct stores `x`, `y`, … as `u32`
after an `as u32` cast of an `i32` difference; the fields here keep the
pre-cast `i32` value (the cast is value-preserving exactly when the value is
non-negative, which claim C1 is about). -/
structure MonitorRegion where
  index : ℕ
  x : ℤ
  y : ℤ
  width : ℤ
  height : ℤ
  workX : ℤ
  workY : ℤ
  workWidth : ℤ
  workHeight : ℤ
  scaleFactor : ℚ
  refreshRate : ℕ
deriving DecidableEq, Repr

/-- `types.rs::VirtualDesktop` (width/height kept as the pre-`u32`-cast `i32`
difference, see `MonitorRegion`). -/
structure VirtualDesktop where
  originX : ℤ
  originY : ℤ
  width : ℤ
  height : ℤ
  monitors : List MonitorRegion
  primaryIndex : ℕ
  primaryScaleFactor : ℚ
deriving DecidableEq, Repr

/-- `types.rs::WindowHealth`; `Instant` timestamps become `ℕ`. -/
structure WindowHealth where
  created_at : ℕ
  last_heartbeat : Option ℕ
  init_complete : Bool
  crash_count : ℕ
deriving DecidableEq, Repr

/-- The two health statics `OVERLAY_HEALTH` / `BACKGROUND_HEALTH` of `lib.rs`,
each an `Option WindowHealth` behind its mutex. -/
structure HealthState where
  overlay : Option WindowHealth
  background : Option WindowHealth
deriving DecidableEq, Repr

/-! ## `platform.rs::get_monitor_work_area` -/

/-- `platform.rs::get_monitor_work_area`.  `workQuery` is the result of the
`MonitorFromPoint`/`GetMonitorInfoW` query: `some rc` is the returned `rcWork`
rectangle, `none` is a failed query.  On success the bounds are derived from
the rectangle (the Rust `as u32` casts of the differences become `toNat`); on
failure the code falls back to the full monitor bounds with
`height.saturating_sub(48)` (which is `Nat` subtraction here). -/
def get_monitor_work_area (workQuery : Option Rect) (x y : ℤ) (width height : ℕ) : BoundsB :=
  match workQuery with
  | some work =>
      { x := work.left
        y := work.top
        width := (work.right - work.left).toNat
        height := (work.bottom - work.top).toNat }
  | none => { x := x, y := y, width := width, height := height - 48 }

/-! ## `commands.rs::get_virtual_desktop` -/

/-- The `to_logical` closure of `get_virtual_desktop`:
`(v as f64 / primary_scale).round() as i32`.  (`to_logical_u` is the same
formula applied to an unsigned value.) -/
def to_logical (physical : ℤ) (scale : ℚ) : ℤ := rha ((physical : ℚ) / scale)

/-- Modelled from the spec: the inverse conversion `to_physical` for
logical-pixel values is not present under `src/` (the spec's Geometry
Primitives define it as the inverse of `to_logical`, i.e.
`round(logical * scale)` with round-half-away-from-zero). -/
def to_physical (logical : ℤ) (scale : ℚ) : ℤ := rha ((logical : ℚ) * scale)

/-- A default monitor, for the (never hit in Rust: `primary_index` is always
in range) out-of-bounds lookup of the primary monitor. -/
def defaultMonitor : Monitor :=
  { x := 0, y := 0, width := 0, height := 0, scale := 1, workQuery := none, refresh := 60 }

/-- `commands.rs::get_virtual_desktop`.  `primaryIndex` is the result of
`platform.rs::get_primary_monitor_index` (an OS query; always a valid index).
The min/max folds start from `i32::MAX` / `i32::MIN` as in the source. -/
def get_virtual_desktop (monitors : List Monitor) (primaryIndex : ℕ) :
    Except String VirtualDesktop :=
  if monitors.isEmpty then .error ("No monitors found")
  else
    let x_min : ℤ := monitors.foldl (fun acc m => min acc m.x) 2147483647
    let y_min : ℤ := monitors.foldl (fun acc m => min acc m.y) 2147483647
    let x_max : ℤ := monitors.foldl (fun acc m => max acc (m.x + (m.width : ℤ))) (-2147483648)
    let y_max : ℤ := monitors.foldl (fun acc m => max acc (m.y + (m.height : ℤ))) (-2147483648)
    let primary_scale : ℚ := (monitors.getD primaryIndex defaultMonitor).scale
    let logical_x_min := to_logical x_min primary_scale
    let logical_y_min := to_logical y_min primary_scale
    let logical_x_max := to_logical x_max primary_scale
    let logical_y_max := to_logical y_max primary_scale
    let regions : List MonitorRegion := monitors.enum.map (fun p =>
      let m := p.2
      let work := get_monitor_work_area m.workQuery m.x m.y m.width m.height
      { index := p.1
        x := to_logical m.x primary_scale - logical_x_min
        y := to_logical m.y primary_scale - logical_y_min
        width := to_logical (m.width : ℤ) primary_scale
        height := to_logical (m.height : ℤ) primary_scale
        workX := to_logical work.x primary_scale - logical_x_min
        workY := to_logical work.y primary_scale - logical_y_min
        workWidth := to_logical (work.width : ℤ) primary_scale
        workHeight := to_logical (work.height : ℤ) primary_scale
        scaleFactor := m.scale
        refreshRate := m.refresh })
    .ok
      { originX := logical_x_min
        originY := logical_y_min
        width := logical_x_max - logical_x_min
        height := logical_y_max - logical_y_min
        monitors := regions
        primaryIndex := primaryIndex
        primaryScaleFactor := primary_scale }

/-! ## `commands.rs::heartbeat` -/

/-- The body of the `if let Some(health)` block of `commands.rs::heartbeat`:
on the first heartbeat (`init_complete` still false) it flips
`init_complete` to true and writes `crash_count = 0`; every heartbeat then
stores the current instant in `last_heartbeat`. -/
def heartbeat_update (h : WindowHealth) (now : ℕ) : WindowHealth :=
  let h1 := if h.init_complete then h
            else { h with init_complete := true, crash_count := 0 }
  { h1 with last_heartbeat := some now }

/-- `commands.rs::heartbeat`: dispatch on the window label; unrecognized
labels return without touching any state; a recognized label with an empty
health slot (`None` behind the mutex) also changes nothing. -/
def heartbeat (label : String) (st : HealthState) (now : ℕ) : HealthState :=
  if label = "overlay" then
    { st with overlay := st.overlay.map (fun h => heartbeat_update h now) }
  else if label = "background" then
    { st with background := st.background.map (fun h => heartbeat_update h now) }
  else st

/-! ## `window_mgmt.rs::clamp_panel_to_work_area` (same code in `lib.rs`) -/

/-- The monitor-containment test of `clamp_panel_to_work_area`: the saved
logical position lies inside the monitor's logical bounds, each obtained by
the Rust `(v as f64 / scale) as i32` conversion (truncation toward zero). -/
def panelLogicalContains (m : Monitor) (x y : ℤ) : Prop :=
  truncQ ((m.x : ℚ) / m.scale) ≤ x ∧
  x < truncQ ((m.x : ℚ) / m.scale) + truncQ ((m.width : ℚ) / m.scale) ∧
  truncQ ((m.y : ℚ) / m.scale) ≤ y ∧
  y < truncQ ((m.y : ℚ) / m.scale) + truncQ ((m.height : ℚ) / m.scale)

instance (m : Monitor) (x y : ℤ) : Decidable (panelLogicalContains m x y) := by
  unfold panelLogicalContains
  infer_instance

/-- The monitor's work area as `clamp_panel_to_work_area` queries it. -/
def panelWork (m : Monitor) : BoundsB :=
  get_monitor_work_area m.workQuery m.x m.y m.width m.height

/-- Logical work-area x of a monitor (`(work.x as f64 / scale) as i32`). -/
def panelWorkLX (m : Monitor) : ℤ := truncQ (((panelWork m).x : ℚ) / m.scale)

/-- Logical work-area y of a monitor. -/
def panelWorkLY (m : Monitor) : ℤ := truncQ (((panelWork m).y : ℚ) / m.scale)

/-- Logical work-area width of a monitor. -/
def panelWorkLW (m : Monitor) : ℤ := truncQ (((panelWork m).width : ℚ) / m.scale)

/-- Logical work-area height of a monitor. -/
def panelWorkLH (m : Monitor) : ℤ := truncQ (((panelWork m).height : ℚ) / m.scale)

/-- `window_mgmt.rs::clamp_panel_to_work_area` (lib.rs:1543 is identical):
find the first monitor whose logical bounds contain the saved position and
clamp the panel into its work area with an 8-px margin, guarding the upper
clamp bounds with `.max(x_min)` / `.max(y_min)`; if no monitor contains the
position, return it unchanged. -/
def clamp_panel_to_work_area : List Monitor → ℤ → ℤ → ℤ → ℤ → ℤ × ℤ
  | [], x, y, _, _ => (x, y)
  | m :: rest, x, y, panelW, panelH =>
    if panelLogicalContains m x y then
      let xMin := panelWorkLX m + 8
      let yMin := panelWorkLY m + 8
      let xMax := max (panelWorkLX m + panelWorkLW m - panelW - 8) xMin
      let yMax := max (panelWorkLY m + panelWorkLH m - panelH - 8) yMin
      (min (max x xMin) xMax, min (max y yMin) yMax)
    else clamp_panel_to_work_area rest x y panelW panelH

/-! ## `window_detector.rs::enum_window_callback` -/

/-- `window_detector.rs::WindowInfo::bounds`. -/
structure WBounds where
  x : ℤ
  y : ℤ
  width : ℕ
  height : ℕ
deriving DecidableEq, Repr

/-- `window_detector.rs::WindowInfo`. -/
structure WindowInfo where
  bounds : WBounds
  title : String
  isMaximized : Bool
deriving DecidableEq, Repr

instance : DecidableEq (Except Unit Bool) := fun a b =>
  match a, b with
  | .ok x, .ok y => decidable_of_iff (x = y) (by simp)
  | .error x, .error y => decidable_of_iff True (by cases x; cases y; simp)
  | .ok _, .error _ => decidable_of_iff False (by simp)
  | .error _, .ok _ => decidable_of_iff False (by simp)

/-- One enumerated top-level window, carrying the answers the OS gives the
callback: visibility, `IsIconic`, `GetWindowPlacement` (`none` = call failed,
`some cmd` = its `showCmd`), the DWM cloak attribute (`none` = query failed),
the `IsWindowOnCurrentVirtualDesktop` COM answer (`Except` error = COM error),
`IsZoomed`, the DWM extended-frame-bounds rectangle and the `GetWindowRect`
fallback (`none` = the respective query failed), and the class name and title
(`GetClassNameW`/`GetWindowTextW`, empty string for zero length). -/
structure SynthWindow where
  visible : Bool
  iconic : Bool
  placementShowCmd : Option ℕ
  cloaked : Option ℕ
  onCurrentDesktop : Except Unit Bool
  zoomed : Bool
  extendedFrameBounds : Option Rect
  windowRect : Option Rect
  className : String
  title : String
deriving DecidableEq, Repr

/-- The cloak rejection: the DWM query succeeded and reported nonzero. -/
def cloakedFlag (w : SynthWindow) : Bool :=
  match w.cloaked with
  | some c => c != 0
  | none => false

/-- The virtual-desktop rejection: `Ok(is_current)` with `!is_current`
rejects; a COM `Err` does not (prefer showing over hiding). -/
def notOnCurrentDesktop (w : SynthWindow) : Bool :=
  match w.onCurrentDesktop with
  | .ok b => !b
  | .error _ => false

/-- The fixed class-name denylist of `enum_window_callback`. -/
def classDenylisted (c : String) : Bool :=
  c == "CEF-OSC-WIDGET" || c == "Progman" || c == "WorkerW" ||
  c == "Shell_TrayWnd" || c == "Shell_SecondaryTrayWnd" ||
  c == "NotifyIconOverflowWindow" || c == "Windows.UI.Core.CoreWindow" ||
  c == "XamlExplorerHostIslandWindow" || c == "ForegroundStaging" ||
  c == "MultitaskingViewFrame" || c == "XamlWindow"

/-- The fixed title denylist (known OS overlays). -/
def titleDenylisted (t : String) : Bool :=
  t == "Windows Input Experience" || t == "Microsoft Text Input Application" ||
  t == "Task Switching" || t == "Task View"

/-- Bounds resolution: DWM extended frame bounds, else `GetWindowRect`. -/
def effectiveRect (w : SynthWindow) : Option Rect :=
  match w.extendedFrameBounds with
  | some r => some r
  | none => w.windowRect

/-- The second half of `enum_window_callback`, from the bounds query on
(source lines 154-270): resolve the rectangle, reject degenerate and tiny
bounds (`width`/`height` are the `as u32` casts of the differences, written
`toNat` inline), denylisted classes, phantom near-origin portrait windows,
and the title-based rejections, else push the window.  `2` in the caller is
Win32's `SW_SHOWMINIMIZED`. -/
def classify_window_rect (w : SynthWindow) : Option WindowInfo :=
  match effectiveRect w with
  | none => none
  | some r =>
    if r.right - r.left ≤ 0 ∨ r.bottom - r.top ≤ 0 then none
    else if (r.right - r.left).toNat < 50 ∨ (r.bottom - r.top).toNat < 50 then none
    else if classDenylisted w.className then none
    else if (r.left.natAbs < 50 ∧ r.top.natAbs < 50) ∧
            ((r.right - r.left).toNat < (r.bottom - r.top).toNat ∧
              (1000 ≤ (r.right - r.left).toNat ∨ 1800 ≤ (r.bottom - r.top).toNat)) then none
    else if w.title = "" then none
    else if strStartsWith w.title ("RainyDesk") then none
    else if strContains w.title ("DevTools") then none
    else if titleDenylisted w.title then none
    else some { bounds := { x := r.left, y := r.top,
                            width := (r.right - r.left).toNat,
                            height := (r.bottom - r.top).toNat }
                title := w.title
                isMaximized := w.zoomed }

/-- `window_detector.rs::enum_window_callback` as a classifier: `some info`
when the window is pushed into the result vector, `none` when any filter
stage rejects it.  The early gates (visibility, minimization two ways,
cloaking, virtual desktop) appear in source order; the rest is
`classify_window_rect`. -/
def enum_window_callback (vdmPresent : Bool) (w : SynthWindow) : Option WindowInfo :=
  if w.visible = false then none
  else if w.iconic then none
  else if w.placementShowCmd = some 2 then none
  else if cloakedFlag w then none
  else if vdmPresent && notOnCurrentDesktop w then none
  else classify_window_rect w

/-! ## `platform.rs::get_monitor_snapshot` -/

/-- Lexicographic order on snapshot tuples: Rust's derived `Ord` on
`(i32, i32, u32, u32, i32)`, as used by `Vec::sort`. -/
def tupLE (a b : ℤ × ℤ × ℕ × ℕ × ℤ) : Prop :=
  a.1 < b.1 ∨ (a.1 = b.1 ∧ (a.2.1 < b.2.1 ∨ (a.2.1 = b.2.1 ∧ (a.2.2.1 < b.2.2.1 ∨
    (a.2.2.1 = b.2.2.1 ∧ (a.2.2.2.1 < b.2.2.2.1 ∨
      (a.2.2.2.1 = b.2.2.2.1 ∧ a.2.2.2.2 ≤ b.2.2.2.2)))))))

instance : DecidableRel tupLE := fun a b => by
  unfold tupLE
  infer_instance

instance : IsTotal (ℤ × ℤ × ℕ × ℕ × ℤ) tupLE :=
  ⟨by intro a b; unfold tupLE; omega⟩

instance : IsTrans (ℤ × ℤ × ℕ × ℕ × ℤ) tupLE :=
  ⟨by intro a b c; unfold tupLE; omega⟩

/-- The per-monitor snapshot tuple: position, size, and
`(scale_factor * 1000.0) as i32` (integer permille, truncated toward zero). -/
def snapshotTuple (m : Monitor) : ℤ × ℤ × ℕ × ℕ × ℤ :=
  (m.x, m.y, m.width, m.height, truncQ (m.scale * 1000))

/-- `platform.rs::get_monitor_snapshot`: `available_monitors()` delivered as
an `Except` (`unwrap_or_default` turns an error into the empty list), mapped
to tuples and sorted.  Rust's stable `Vec::sort` is embedded as a stable
sort (`List.insertionSort`) under the same lexicographic order. -/
def get_monitor_snapshot (monitorsResult : Except String (List Monitor)) :
    List (ℤ × ℤ × ℕ × ℕ × ℤ) :=
  let monitors := match monitorsResult with
    | .ok l => l
    | .error _ => []
  List.insertionSort tupLE (monitors.map snapshotTuple)

/-! ## `commands.rs::open_url` -/

/-- `commands.rs::open_url`: the scheme gate, then the `ShellExecuteW` call.
The `.ok` payload lists the URLs passed to `ShellExecuteW` (exactly one when
the gate passes); the guard returns the error before any OS call. -/
def open_url (url : String) : Except String (List String) :=
  if strStartsWith url ("http://") = false ∧ strStartsWith url ("https://") = false then
    .error ("Only http/https URLs are allowed")
  else .ok [url]

/-! ## Concrete inputs used by witnesses and counterexamples -/

/-- A synthetic ordinary window: visible, restored (`showCmd = 1`),
uncloaked, on the current desktop, 800x600 extended frame bounds at
(10, 20), ordinary class and title. -/
def includedWindow : SynthWindow :=
  { visible := true
    iconic := false
    placementShowCmd := some 1
    cloaked := some 0
    onCurrentDesktop := .ok true
    zoomed := false
    extendedFrameBounds := some { left := 10, top := 20, right := 810, bottom := 620 }
    windowRect := none
    className := "Chrome_WidgetWin_1"
    title := "report.txt - Editor" }

/-- A single 1920x1080 monitor at the origin, 100% scale, whose work-area
query succeeds with a 48-px taskbar at the bottom. -/
def panelMonitor : Monitor :=
  { x := 0
    y := 0
    width := 1920
    height := 1080
    scale := 1
    workQuery := some { left := 0, top := 0, right := 1920, bottom := 1032 }
    refresh := 60 }

/-- A primary 1x1 monitor at the origin with 200% scale (failed work-area
query). -/
def cexMonA : Monitor :=
  { x := 0, y := 0, width := 1, height := 1, scale := 2, workQuery := none, refresh := 60 }

/-- A secondary 1x1 monitor at (1, 0) with 100% scale. -/
def cexMonB : Monitor :=
  { x := 1, y := 0, width := 1, height := 1, scale := 1, workQuery := none, refresh := 60 }

/-- The region `get_virtual_desktop [cexMonA, cexMonB] 0` computes for
`cexMonA` (everything divided by the primary scale 2 and rounded). -/
def cexRegionA : MonitorRegion :=
  { index := 0, x := 0, y := 0, width := 1, height := 1,
    workX := 0, workY := 0, workWidth := 1, workHeight := 0,
    scaleFactor := 2, refreshRate := 60 }

/-- The region computed for `cexMonB`: its position 1 and size 1 each round
up to 1 under scale 2, overshooting the virtual desktop's rounded total
width of 1. -/
def cexRegionB : MonitorRegion :=
  { index := 1, x := 1, y := 0, width := 1, height := 1,
    workX := 1, workY := 0, workWidth := 1, workHeight := 0,
    scaleFactor := 1, refreshRate := 60 }

/-- The virtual desktop `get_virtual_desktop [cexMonA, cexMonB] 0` returns:
physical bbox (0,0)-(2,1), scale 2, logical size 1x1. -/
def cexVD : VirtualDesktop :=
  { originX := 0, originY := 0, width := 1, height := 1,
    monitors := [cexRegionA, cexRegionB], primaryIndex := 0, primaryScaleFactor := 2 }

/-! ## Claim C9: work-area query failure falls back to monitor bounds with
height reduced by 48 -/

/-- C9: for every monitor bounds `(x, y, width, height)`, if the OS work-area
query fails (`workQuery = none`) then `get_monitor_work_area` returns the
full monitor bounds with the same x, y and width and the height reduced by
the fixed constant 48 (saturating, as `height` is unsigned). -/
theorem get_monitor_work_area_fallback (x y : ℤ) (width height : ℕ) :
    (get_monitor_work_area none x y width height).x = x ∧
    (get_monitor_work_area none x y width height).y = y ∧
    (get_monitor_work_area none x y width height).width = width ∧
    (get_monitor_work_area none x y width height).height = height - 48 :=
  ⟨rfl, rfl, rfl, rfl⟩

/-! ## Claim C10: `open_url` only shell-executes http/https URLs -/

/-- C10: a URL starting with neither scheme is answered with the error
string and no `ShellExecuteW` call happens (the action list is only produced
on the `.ok` path); conversely whenever `open_url` succeeds, the URL has one
of the two schemes and the single shell-execute action carries exactly it. -/
theorem open_url_scheme_gate :
    (∀ url : String, strStartsWith url ("http://") = false →
      strStartsWith url ("https://") = false →
      open_url url = .error ("Only http/https URLs are allowed")) ∧
    (∀ (url : String) (acts : List String), open_url url = .ok acts →
      (strStartsWith url ("http://") = true ∨ strStartsWith url ("https://") = true) ∧
      acts = [url]) := by
  constructor
  · intro url h1 h2
    unfold open_url
    rw [if_pos ⟨h1, h2⟩]
  · intro url acts h
    unfold open_url at h
    by_cases hc : strStartsWith url ("http://") = false ∧ strStartsWith url ("https://") = false
    · rw [if_pos hc] at h
      cases h
    · rw [if_neg hc] at h
      injection h with hacts
      refine ⟨?_, hacts.symm⟩
      cases h1 : strStartsWith url ("http://")
      · cases h2 : strStartsWith url ("https://")
        · exact absurd ⟨h1, h2⟩ hc
        · exact Or.inr rfl
      · exact Or.inl rfl

/-- C10 witness: a concrete non-http URL is rejected with the exact error. -/
theorem open_url_scheme_gate_witness :
    open_url ("ftp://example.com") = .error ("Only http/https URLs are allowed") :=
  open_url_scheme_gate.1 ("ftp://example.com") (by decide) (by decide)

/-! ## Claim C8: monitor snapshot is a sorted tuple list, empty on failure -/

/-- C8: `get_monitor_snapshot` yields the empty list when monitor
enumeration fails, and otherwise a list sorted under the lexicographic tuple
order that is a permutation of (hence one tuple per) the monitors'
`(x, y, width, height, scale*1000 truncated)` tuples. -/
theorem get_monitor_snapshot_spec :
    (∀ e : String, get_monitor_snapshot (.error e) = []) ∧
    (∀ l : List Monitor,
      List.Sorted tupLE (get_monitor_snapshot (.ok l)) ∧
      List.Perm (get_monitor_snapshot (.ok l)) (l.map snapshotTuple)) :=
  ⟨fun _ => rfl,
   fun l => ⟨List.sorted_insertionSort tupLE (l.map snapshotTuple),
             List.perm_insertionSort tupLE (l.map snapshotTuple)⟩⟩

/-! ## Claim C2 (corrected): `heartbeat` resets `crash_count` on the first
heartbeat after (re)creation -/

/-- C2 counterexample: a health record with `crash_count = 2` and
`init_complete = false` (the state right after a crash recovery recreated
the surface) is reset to `crash_count = 0` by the next heartbeat — the
counter is set to a strictly smaller value. -/
theorem heartbeat_crash_count_cex :
    ((heartbeat ("overlay")
        { overlay := some { created_at := 0, last_heartbeat := none,
                            init_complete := false, crash_count := 2 }
          background := none } 5).overlay.map WindowHealth.crash_count) = some 0 ∧
    (0 : ℕ) < 2 := by
  constructor
  · decide
  · decide

/-- C2 amended: `heartbeat` leaves `crash_count` unchanged except that a
heartbeat for a recognized surface whose record still has
`init_complete = false` (the first heartbeat after that surface's record was
created) sets it to 0; no heartbeat increments it or changes the other
surface's counter. -/
theorem heartbeat_crash_count_amended (label : String) (st : HealthState) (now : ℕ) :
    ((heartbeat label st now).overlay.map WindowHealth.crash_count
        = st.overlay.map (fun h =>
            if label = "overlay" ∧ h.init_complete = false then 0 else h.crash_count)) ∧
    ((heartbeat label st now).background.map WindowHealth.crash_count
        = st.background.map (fun h =>
            if label = "background" ∧ h.init_complete = false then 0 else h.crash_count)) := by
  have hob : ("overlay" : String) ≠ "background" := by decide
  unfold heartbeat heartbeat_update
  split_ifs with h1 h2
  · subst h1
    constructor
    · cases st.overlay with
      | none => rfl
      | some h =>
        cases hic : h.init_complete <;> simp [hic]
    · cases st.background with
      | none => rfl
      | some h =>
        cases hic : h.init_complete <;> simp [hic, hob]
  · subst h2
    constructor
    · cases st.overlay with
      | none => rfl
      | some h =>
        cases hic : h.init_complete <;> simp [hic, h1]
    · cases st.background with
      | none => rfl
      | some h =>
        cases hic : h.init_complete <;> simp [hic]
  · constructor
    · cases st.overlay with
      | none => rfl
      | some h => simp [h1]
    · cases st.background with
      | none => rfl
      | some h => simp [h2]

/-! ## Claim C6: heartbeat semantics for recognized and unrecognized labels -/

/-- C6: a heartbeat for a recognized label (with its health record present)
always ends with `init_complete = true` and `last_heartbeat = some now`;
when the record already had `init_complete = true`, only the timestamp
changes; a heartbeat for an unrecognized label changes nothing. -/
theorem heartbeat_spec (st : HealthState) (now : ℕ) :
    ((heartbeat ("overlay") st now).overlay.map WindowHealth.init_complete
        = st.overlay.map (fun _ => true)) ∧
    ((heartbeat ("overlay") st now).overlay.map WindowHealth.last_heartbeat
        = st.overlay.map (fun _ => some now)) ∧
    ((heartbeat ("background") st now).background.map WindowHealth.init_complete
        = st.background.map (fun _ => true)) ∧
    ((heartbeat ("background") st now).background.map WindowHealth.last_heartbeat
        = st.background.map (fun _ => some now)) ∧
    (∀ h : WindowHealth, st.overlay = some h → h.init_complete = true →
      (heartbeat ("overlay") st now).overlay = some { h with last_heartbeat := some now }) ∧
    (∀ h : WindowHealth, st.background = some h → h.init_complete = true →
      (heartbeat ("background") st now).background
        = some { h with last_heartbeat := some now }) ∧
    (∀ label : String, label ≠ "overlay" → label ≠ "background" →
      heartbeat label st now = st) := by
  have hbo : ("background" : String) ≠ "overlay" := by decide
  refine ⟨?_, ?_, ?_, ?_, ?_, ?_, ?_⟩
  · cases hst : st.overlay with
    | none => simp [heartbeat, hst]
    | some h =>
      cases hic : h.init_complete <;>
        simp [heartbeat, heartbeat_update, hst, hic]
  · cases hst : st.overlay with
    | none => simp [heartbeat, hst]
    | some h =>
      cases hic : h.init_complete <;>
        simp [heartbeat, heartbeat_update, hst, hic]
  · cases hst : st.background with
    | none => simp [heartbeat, hbo, hst]
    | some h =>
      cases hic : h.init_complete <;>
        simp [heartbeat, heartbeat_update, hbo, hst, hic]
  · cases hst : st.background with
    | none => simp [heartbeat, hbo, hst]
    | some h =>
      cases hic : h.init_complete <;>
        simp [heartbeat, heartbeat_update, hbo, hst, hic]
  · intro h hst hic
    simp [heartbeat, hst, heartbeat_update, hic]
  · intro h hst hic
    simp [heartbeat, hbo, hst, heartbeat_update, hic]
  · intro label hl1 hl2
    simp [heartbeat, hl1, hl2]

/-- C6 witness: a concrete first heartbeat and a concrete unrecognized-label
call, at an explicit state. -/
theorem heartbeat_spec_witness :
    ((heartbeat ("overlay")
        { overlay := some { created_at := 3, last_heartbeat := none,
                            init_complete := false, crash_count := 0 }
          background := none } 7).overlay.map WindowHealth.init_complete = some true) ∧
    (heartbeat ("rainscaper")
        { overlay := some { created_at := 3, last_heartbeat := none,
                            init_complete := false, crash_count := 0 }
          background := none } 7
      = { overlay := some { created_at := 3, last_heartbeat := none,
                            init_complete := false, crash_count := 0 }
          background := none }) := by
  constructor
  · exact (heartbeat_spec
      { overlay := some { created_at := 3, last_heartbeat := none,
                          init_complete := false, crash_count := 0 }
        background := none } 7).1
  · exact (heartbeat_spec
      { overlay := some { created_at := 3, last_heartbeat := none,
                          init_complete := false, crash_count := 0 }
        background := none } 7).2.2.2.2.2.2 ("rainscaper") (by decide) (by decide)

/-! ## Claim C7: virtual-desktop filter stage — COM error does not reject -/

/-- C7: with the virtual-desktop manager present, a window whose membership
query errors is classified exactly like one reported on the current desktop
(the stage does not reject, later stages still apply), while a window the
query reports as off the current desktop is always rejected. -/
theorem enum_window_callback_vd_policy :
    (∀ w : SynthWindow,
      enum_window_callback true { w with onCurrentDesktop := .error () } =
        enum_window_callback true { w with onCurrentDesktop := .ok true }) ∧
    (∀ w : SynthWindow, w.onCurrentDesktop = .ok false →
      enum_window_callback true w = none) := by
  constructor
  · intro w
    rfl
  · intro w h
    have hn : notOnCurrentDesktop w = true := by
      unfold notOnCurrentDesktop
      rw [h]
      rfl
    have hc5 : (true && notOnCurrentDesktop w) = true := by rw [hn]; rfl
    unfold enum_window_callback
    by_cases h1 : w.visible = false
    · rw [if_pos h1]
    · rw [if_neg h1]
      by_cases h2 : w.iconic = true
      · rw [if_pos h2]
      · rw [if_neg h2]
        by_cases h3 : w.placementShowCmd = some 2
        · rw [if_pos h3]
        · rw [if_neg h3]
          by_cases h4 : cloakedFlag w = true
          · rw [if_pos h4]
          · rw [if_neg h4, if_pos hc5]

/-- C7 witness: at a concrete window, a COM-error membership query yields
the same classification as an on-current-desktop answer, and an
off-current-desktop answer yields rejection. -/
theorem enum_window_callback_vd_policy_witness :
    (enum_window_callback true { includedWindow with onCurrentDesktop := .error () } =
      enum_window_callback true { includedWindow with onCurrentDesktop := .ok true }) ∧
    enum_window_callback true { includedWindow with onCurrentDesktop := .ok false } = none :=
  ⟨enum_window_callback_vd_policy.1 includedWindow,
   enum_window_callback_vd_policy.2 { includedWindow with onCurrentDesktop := .ok false } rfl⟩

/-! ## Claim C3: foreign-window filter exclusions and inclusion -/

/-- The early gates either reject a window or hand it to
`classify_window_rect`. -/
theorem enum_window_callback_cases (v : Bool) (w : SynthWindow) :
    enum_window_callback v w = none ∨
    enum_window_callback v w = classify_window_rect w := by
  unfold enum_window_callback
  by_cases h1 : w.visible = false
  · exact Or.inl (if_pos h1)
  · rw [if_neg h1]
    by_cases h2 : w.iconic = true
    · exact Or.inl (if_pos h2)
    · rw [if_neg h2]
      by_cases h3 : w.placementShowCmd = some 2
      · exact Or.inl (if_pos h3)
      · rw [if_neg h3]
        by_cases h4 : cloakedFlag w = true
        · exact Or.inl (if_pos h4)
        · rw [if_neg h4]
          by_cases h5 : (v && notOnCurrentDesktop w) = true
          · exact Or.inl (if_pos h5)
          · rw [if_neg h5]
            exact Or.inr rfl

/-- Everything that must have held of a window `classify_window_rect`
accepted, and the exact `WindowInfo` it emitted. -/
theorem classify_window_rect_eq_some (w : SynthWindow) (info : WindowInfo)
    (h : classify_window_rect w = some info) :
    ∃ r, effectiveRect w = some r ∧
      0 < r.right - r.left ∧ 0 < r.bottom - r.top ∧
      50 ≤ (r.right - r.left).toNat ∧ 50 ≤ (r.bottom - r.top).toNat ∧
      classDenylisted w.className = false ∧
      w.title ≠ "" ∧
      strStartsWith w.title ("RainyDesk") = false ∧
      strContains w.title ("DevTools") = false ∧
      titleDenylisted w.title = false ∧
      info = { bounds := { x := r.left, y := r.top,
                           width := (r.right - r.left).toNat,
                           height := (r.bottom - r.top).toNat }
               title := w.title
               isMaximized := w.zoomed } := by
  unfold classify_window_rect at h
  cases hr : effectiveRect w with
  | none => rw [hr] at h; cases h
  | some r =>
    rw [hr] at h
    dsimp only at h
    by_cases c1 : r.right - r.left ≤ 0 ∨ r.bottom - r.top ≤ 0
    · rw [if_pos c1] at h; cases h
    · rw [if_neg c1] at h
      by_cases c2 : (r.right - r.left).toNat < 50 ∨ (r.bottom - r.top).toNat < 50
      · rw [if_pos c2] at h; cases h
      · rw [if_neg c2] at h
        by_cases c3 : classDenylisted w.className = true
        · rw [if_pos c3] at h; cases h
        · rw [if_neg c3] at h
          by_cases c4 : (r.left.natAbs < 50 ∧ r.top.natAbs < 50) ∧
              ((r.right - r.left).toNat < (r.bottom - r.top).toNat ∧
                (1000 ≤ (r.right - r.left).toNat ∨ 1800 ≤ (r.bottom - r.top).toNat))
          · rw [if_pos c4] at h; cases h
          · rw [if_neg c4] at h
            by_cases c5 : w.title = ""
            · rw [if_pos c5] at h; cases h
            · rw [if_neg c5] at h
              by_cases c6 : strStartsWith w.title ("RainyDesk") = true
              · rw [if_pos c6] at h; cases h
              · rw [if_neg c6] at h
                by_cases c7 : strContains w.title ("DevTools") = true
                · rw [if_pos c7] at h; cases h
                · rw [if_neg c7] at h
                  by_cases c8 : titleDenylisted w.title = true
                  · rw [if_pos c8] at h; cases h
                  · rw [if_neg c8] at h
                    injection h with hinfo
                    refine ⟨r, rfl, by omega, by omega, by omega, by omega,
                      ?_, c5, ?_, ?_, ?_, hinfo.symm⟩
                    · cases hb : classDenylisted w.className
                      · rfl
                      · exact absurd hb c3
                    · cases hb : strStartsWith w.title ("RainyDesk")
                      · rfl
                      · exact absurd hb c6
                    · cases hb : strContains w.title ("DevTools")
                      · rfl
                      · exact absurd hb c7
                    · cases hb : titleDenylisted w.title
                      · rfl
                      · exact absurd hb c8

/-- The accepting run of `classify_window_rect`, given every filter stage
passes. -/
theorem classify_window_rect_pos (w : SynthWindow) (r : Rect)
    (hr : effectiveRect w = some r)
    (hw : 50 ≤ r.right - r.left) (hh : 50 ≤ r.bottom - r.top)
    (hcl : classDenylisted w.className = false)
    (hph : ¬((r.left.natAbs < 50 ∧ r.top.natAbs < 50) ∧
          ((r.right - r.left).toNat < (r.bottom - r.top).toNat ∧
            (1000 ≤ (r.right - r.left).toNat ∨ 1800 ≤ (r.bottom - r.top).toNat))))
    (ht0 : w.title ≠ "")
    (ht1 : strStartsWith w.title ("RainyDesk") = false)
    (ht2 : strContains w.title ("DevTools") = false)
    (ht3 : titleDenylisted w.title = false) :
    classify_window_rect w
      = some { bounds := { x := r.left, y := r.top,
                           width := (r.right - r.left).toNat,
                           height := (r.bottom - r.top).toNat }
               title := w.title
               isMaximized := w.zoomed } := by
  unfold classify_window_rect
  rw [hr]
  dsimp only
  rw [if_neg (by omega), if_neg (by omega),
      if_neg (by simp [hcl]), if_neg hph, if_neg ht0,
      if_neg (by simp [ht1]), if_neg (by simp [ht2]), if_neg (by simp [ht3])]

/-- C3: the classifier excludes every minimized window, every window whose
effective rectangle is smaller than 50 px in either dimension (so in
particular every 10x10 window) or missing, and every window with an empty
title; and it includes a visible, non-minimized, non-cloaked 800x600 window
with ordinary class and title, with bounds taken from its extended frame
bounds rectangle. -/
theorem enum_window_callback_filters :
    (∀ (v : Bool) (w : SynthWindow), w.iconic = true →
      enum_window_callback v w = none) ∧
    (∀ (v : Bool) (w : SynthWindow), effectiveRect w = none →
      enum_window_callback v w = none) ∧
    (∀ (v : Bool) (w : SynthWindow) (r : Rect), effectiveRect w = some r →
      (r.right - r.left < 50 ∨ r.bottom - r.top < 50) →
      enum_window_callback v w = none) ∧
    (∀ (v : Bool) (w : SynthWindow), w.title = "" →
      enum_window_callback v w = none) ∧
    (∀ (v : Bool) (w : SynthWindow) (r : Rect),
      w.visible = true → w.iconic = false → w.placementShowCmd ≠ some 2 →
      cloakedFlag w = false → (v && notOnCurrentDesktop w) = false →
      w.extendedFrameBounds = some r →
      r.right - r.left = 800 → r.bottom - r.top = 600 →
      classDenylisted w.className = false → w.title ≠ "" →
      strStartsWith w.title ("RainyDesk") = false →
      strContains w.title ("DevTools") = false →
      titleDenylisted w.title = false →
      enum_window_callback v w
        = some { bounds := { x := r.left, y := r.top, width := 800, height := 600 }
                 title := w.title
                 isMaximized := w.zoomed }) := by
  refine ⟨?_, ?_, ?_, ?_, ?_⟩
  · intro v w hic
    unfold enum_window_callback
    by_cases h1 : w.visible = false
    · rw [if_pos h1]
    · rw [if_neg h1, if_pos hic]
  · intro v w hrect
    cases hcb : enum_window_callback v w with
    | none => rfl
    | some info =>
      rcases enum_window_callback_cases v w with hc | hc
      · rw [hcb] at hc; cases hc
      · rw [hcb] at hc
        obtain ⟨r, hr, -⟩ := classify_window_rect_eq_some w info hc.symm
        rw [hrect] at hr
        cases hr
  · intro v w r hrect hsmall
    cases hcb : enum_window_callback v w with
    | none => rfl
    | some info =>
      rcases enum_window_callback_cases v w with hc | hc
      · rw [hcb] at hc; cases hc
      · rw [hcb] at hc
        obtain ⟨r2, hr2, hp1, hp2, hp3, hp4, -⟩ :=
          classify_window_rect_eq_some w info hc.symm
        rw [hrect] at hr2
        injection hr2 with hr2
        subst hr2
        omega
  · intro v w htitle
    cases hcb : enum_window_callback v w with
    | none => rfl
    | some info =>
      rcases enum_window_callback_cases v w with hc | hc
      · rw [hcb] at hc; cases hc
      · rw [hcb] at hc
        obtain ⟨r, -, -, -, -, -, -, hne, -⟩ := classify_window_rect_eq_some w info hc.symm
        exact absurd htitle hne
  · intro v w r h1 h2 h3 h4 h5 h6 h7 h8 h9 h10 h11 h12 h13
    have hg : enum_window_callback v w = classify_window_rect w := by
      unfold enum_window_callback
      rw [if_neg (by simp [h1]), if_neg (by simp [h2]), if_neg h3,
          if_neg (by simp [h4]), if_neg (by simp [h5])]
    have hr : effectiveRect w = some r := by
      unfold effectiveRect
      rw [h6]
    rw [hg, classify_window_rect_pos w r hr (by omega) (by omega) h9
        (fun hcon => by obtain ⟨-, hB, -⟩ := hcon; omega) h10 h11 h12 h13,
        h7, h8]
    rfl

/-- C3 witness: the concrete 800x600 window is included with its
frame-extension bounds; its minimized, 10x10 and untitled variants are each
excluded. -/
theorem enum_window_callback_filters_witness :
    enum_window_callback true includedWindow
      = some { bounds := { x := 10, y := 20, width := 800, height := 600 }
               title := "report.txt - Editor"
               isMaximized := false } ∧
    enum_window_callback true { includedWindow with iconic := true } = none ∧
    enum_window_callback true
      { includedWindow with
        extendedFrameBounds := some { left := 0, top := 0, right := 10, bottom := 10 } }
      = none ∧
    enum_window_callback true { includedWindow with title := "" } = none := by
  refine ⟨?_, ?_, ?_, ?_⟩
  · exact enum_window_callback_filters.2.2.2.2 true includedWindow
      { left := 10, top := 20, right := 810, bottom := 620 }
      rfl rfl (by decide) rfl rfl rfl (by decide) (by decide) (by decide)
      (by decide) (by decide) (by decide) (by decide)
  · exact enum_window_callback_filters.1 true { includedWindow with iconic := true } rfl
  · exact enum_window_callback_filters.2.2.1 true
      { includedWindow with
        extendedFrameBounds := some { left := 0, top := 0, right := 10, bottom := 10 } }
      { left := 0, top := 0, right := 10, bottom := 10 } rfl (by decide)
  · exact enum_window_callback_filters.2.2.2.1 true
      { includedWindow with title := "" } rfl

/-! ## Claim C4 (corrected): logical/physical round-trip -/

/-- C4 counterexample: scale `1/2` is positive, `1` is a multiple of
`round(1/2) = 1`, yet converting the logical value 1 to physical pixels and
back yields `round(round(1 * 1/2) / (1/2)) = round(2) = 2`, not 1. -/
theorem to_logical_roundtrip_cex :
    (0 : ℚ) < 1/2 ∧ (1 : ℤ) = 1 * rha (1/2) ∧
    to_logical (to_physical 1 (1/2)) (1/2) ≠ 1 := by
  have h1 : rha (1/2 : ℚ) = 1 := by
    unfold rha
    norm_num [round_eq]
  refine ⟨by norm_num, by rw [h1]; norm_num, ?_⟩
  have h2 : to_physical 1 (1/2) = 1 := by
    unfold to_physical
    norm_num [h1]
  rw [h2]
  have h3 : to_logical 1 (1/2) = 2 := by
    unfold to_logical rha
    norm_num [round_eq]
  rw [h3]
  decide

/-- C4 amended: for every scale factor `s ≥ 1` and every logical value `v`
that is a multiple of `round(s)`, physical-and-back round-trips exactly:
`to_logical (to_physical v s) s = v` (for `s < 1` the round-trip can move
the value, see the counterexample). -/
theorem to_logical_to_physical_roundtrip (s : ℚ) (hs : 1 ≤ s) (v k : ℤ)
    (_hv : v = k * rha s) :
    to_logical (to_physical v s) s = v := by
  have hs0 : (0 : ℚ) < s := lt_of_lt_of_le one_pos hs
  unfold to_logical to_physical
  rcases eq_or_lt_of_le hs with heq | hlt
  · rw [← heq, mul_one, rha_intCast, div_one, rha_intCast]
  · have hb1 := rha_ge ((v : ℚ) * s)
    have hb2 := rha_le ((v : ℚ) * s)
    apply rha_eq_of
    · rw [lt_div_iff₀ hs0]
      have hex : ((v : ℚ) - 1/2) * s = (v : ℚ) * s - s/2 := by ring
      rw [hex]
      linarith
    · rw [div_lt_iff₀ hs0]
      have hex : ((v : ℚ) + 1/2) * s = (v : ℚ) * s + s/2 := by ring
      rw [hex]
      linarith

/-- C4 witness: scale `3/2`, logical value `2 = 1 * round(3/2)`
round-trips. -/
theorem to_logical_to_physical_roundtrip_witness :
    to_logical (to_physical 2 (3/2)) (3/2) = 2 :=
  to_logical_to_physical_roundtrip (3/2) (by norm_num) 2 1
    (by unfold rha; norm_num [round_eq])

/-! ## Claim C5 (corrected): panel clamping into the work area -/

/-- C5 counterexample: a saved position left of every monitor matches no
monitor, so `clamp_panel_to_work_area` returns it unchanged — left of the
(only) work area's top-left margin. -/
theorem clamp_panel_to_work_area_cex :
    clamp_panel_to_work_area [panelMonitor] (-500) 10 400 500 = (-500, 10) ∧
    (clamp_panel_to_work_area [panelMonitor] (-500) 10 400 500).1
      < panelWorkLX panelMonitor + 8 := by
  have hnc : ¬ panelLogicalContains panelMonitor (-500) 10 := by
    unfold panelLogicalContains panelMonitor truncQ
    norm_num
  have hres : clamp_panel_to_work_area [panelMonitor] (-500) 10 400 500 = (-500, 10) := by
    unfold clamp_panel_to_work_area
    rw [if_neg hnc]
    rfl
  refine ⟨hres, ?_⟩
  rw [hres]
  have hx : panelWorkLX panelMonitor = 0 := by
    unfold panelWorkLX panelWork get_monitor_work_area panelMonitor truncQ
    norm_num
  rw [hx]
  decide

/-- C5 amended: whenever the saved position lies inside some monitor's
logical bounds, the clamped position is never left of or above that (first
matching) monitor's work-area margin, and a panel larger than the work area
is pinned to the top-left margin; a position inside no monitor is returned
unchanged (see the counterexample). -/
theorem clamp_panel_stays_in_work_area (mons : List Monitor) (x y panelW panelH : ℤ)
    (hc : ∃ m ∈ mons, panelLogicalContains m x y) :
    ∃ m ∈ mons, panelLogicalContains m x y ∧
      panelWorkLX m + 8 ≤ (clamp_panel_to_work_area mons x y panelW panelH).1 ∧
      panelWorkLY m + 8 ≤ (clamp_panel_to_work_area mons x y panelW panelH).2 ∧
      (panelWorkLW m < panelW →
        (clamp_panel_to_work_area mons x y panelW panelH).1 = panelWorkLX m + 8) ∧
      (panelWorkLH m < panelH →
        (clamp_panel_to_work_area mons x y panelW panelH).2 = panelWorkLY m + 8) := by
  induction mons with
  | nil =>
    obtain ⟨m, hm, -⟩ := hc
    cases hm
  | cons a rest ih =>
    by_cases ha : panelLogicalContains a x y
    · simp only [clamp_panel_to_work_area]
      rw [if_pos ha]
      refine ⟨a, List.mem_cons_self a rest, ha, ?_, ?_, ?_, ?_⟩ <;> simp <;> omega
    · have hc2 : ∃ m ∈ rest, panelLogicalContains m x y := by
        obtain ⟨m, hm, hcm⟩ := hc
        rcases List.mem_cons.mp hm with rfl | hm2
        · exact absurd hcm ha
        · exact ⟨m, hm2, hcm⟩
      have heq : clamp_panel_to_work_area (a :: rest) x y panelW panelH
          = clamp_panel_to_work_area rest x y panelW panelH := by
        simp only [clamp_panel_to_work_area]
        rw [if_neg ha]
      rw [heq]
      obtain ⟨m, hm, hcm, h1, h2, h3, h4⟩ := ih hc2
      exact ⟨m, List.mem_cons_of_mem a hm, hcm, h1, h2, h3, h4⟩

/-- C5 witness: a saved position inside the concrete monitor is clamped into
its work area (and the 400x500 panel fits, so no pinning applies). -/
theorem clamp_panel_stays_in_work_area_witness :
    ∃ m ∈ [panelMonitor], panelLogicalContains m 100 100 ∧
      panelWorkLX m + 8 ≤ (clamp_panel_to_work_area [panelMonitor] 100 100 400 500).1 ∧
      panelWorkLY m + 8 ≤ (clamp_panel_to_work_area [panelMonitor] 100 100 400 500).2 ∧
      (panelWorkLW m < 400 →
        (clamp_panel_to_work_area [panelMonitor] 100 100 400 500).1 = panelWorkLX m + 8) ∧
      (panelWorkLH m < 500 →
        (clamp_panel_to_work_area [panelMonitor] 100 100 400 500).2 = panelWorkLY m + 8) :=
  clamp_panel_stays_in_work_area [panelMonitor] 100 100 400 500
    ⟨panelMonitor, List.mem_singleton_self panelMonitor, by
      unfold panelLogicalContains panelMonitor truncQ
      norm_num⟩

/-! ## Claim C1 (corrected): virtual-desktop regions vs. the bounding box -/

theorem foldl_min_le_init (g : Monitor → ℤ) (l : List Monitor) :
    ∀ init : ℤ, l.foldl (fun acc m => min acc (g m)) init ≤ init := by
  induction l with
  | nil => intro init; simp
  | cons a t ih =>
    intro init
    calc t.foldl (fun acc m => min acc (g m)) (min init (g a))
        ≤ min init (g a) := ih (min init (g a))
      _ ≤ init := min_le_left _ _

theorem foldl_min_le (g : Monitor → ℤ) (l : List Monitor) {m : Monitor} (hm : m ∈ l) :
    ∀ init : ℤ, l.foldl (fun acc mm => min acc (g mm)) init ≤ g m := by
  induction l with
  | nil => cases hm
  | cons a t ih =>
    intro init
    rcases List.mem_cons.mp hm with rfl | hm2
    · calc t.foldl (fun acc mm => min acc (g mm)) (min init (g m))
          ≤ min init (g m) := foldl_min_le_init g t (min init (g m))
        _ ≤ g m := min_le_right _ _
    · exact ih hm2 (min init (g a))

theorem init_le_foldl_max (g : Monitor → ℤ) (l : List Monitor) :
    ∀ init : ℤ, init ≤ l.foldl (fun acc m => max acc (g m)) init := by
  induction l with
  | nil => intro init; simp
  | cons a t ih =>
    intro init
    calc init ≤ max init (g a) := le_max_left _ _
      _ ≤ t.foldl (fun acc m => max acc (g m)) (max init (g a)) := ih (max init (g a))

theorem le_foldl_max (g : Monitor → ℤ) (l : List Monitor) {m : Monitor} (hm : m ∈ l) :
    ∀ init : ℤ, g m ≤ l.foldl (fun acc mm => max acc (g mm)) init := by
  induction l with
  | nil => cases hm
  | cons a t ih =>
    intro init
    rcases List.mem_cons.mp hm with rfl | hm2
    · calc g m ≤ max init (g m) := le_max_right _ _
        _ ≤ t.foldl (fun acc mm => max acc (g mm)) (max init (g m)) :=
            init_le_foldl_max g t (max init (g m))
    · exact ih hm2 (max init (g a))

theorem rha_div_mono (s : ℚ) (hs : 0 < s) {a b : ℤ} (h : a ≤ b) :
    rha ((a : ℚ) / s) ≤ rha ((b : ℚ) / s) := by
  apply rha_mono
  gcongr

/-- Rounding each summand separately overshoots the rounded sum by at most
one: the off-by-one slack of claim C1's amended bound. -/
theorem rha_div_pair_le (s : ℚ) (hs : 0 < s) (a w xm : ℤ) (h : a + w ≤ xm) :
    rha ((a : ℚ) / s) + rha ((w : ℚ) / s) ≤ rha ((xm : ℚ) / s) + 1 := by
  have h1 := rha_le ((a : ℚ) / s)
  have h2 := rha_le ((w : ℚ) / s)
  have h3 := rha_ge ((xm : ℚ) / s)
  have hd : (a : ℚ) / s + (w : ℚ) / s ≤ (xm : ℚ) / s := by
    rw [div_add_div_same]
    gcongr
    exact_mod_cast h
  have key : ((rha ((a : ℚ) / s) + rha ((w : ℚ) / s) : ℤ) : ℚ)
      < ((rha ((xm : ℚ) / s) + 2 : ℤ) : ℚ) := by
    push_cast
    linarith
  have key2 : rha ((a : ℚ) / s) + rha ((w : ℚ) / s) < rha ((xm : ℚ) / s) + 2 := by
    exact_mod_cast key
  omega

/-- C1 amended: for a positive primary scale, every region of a successfully
computed virtual desktop has `x ≥ 0` and `y ≥ 0`, and `x + width` /
`y + height` exceed the desktop's total width / height by at most one
logical pixel (per-monitor rounding can overshoot the rounded total by one,
see the counterexample; the original `≤ total` bound is off by one). -/
theorem get_virtual_desktop_regions_in_bbox
    (monitors : List Monitor) (pidx : ℕ) (vd : VirtualDesktop)
    (hvd : get_virtual_desktop monitors pidx = .ok vd)
    (hs : 0 < (monitors.getD pidx defaultMonitor).scale) :
    ∀ r ∈ vd.monitors,
      0 ≤ r.x ∧ 0 ≤ r.y ∧
      r.x + r.width ≤ vd.width + 1 ∧ r.y + r.height ≤ vd.height + 1 := by
  by_cases hne : monitors.isEmpty
  · rw [get_virtual_desktop, if_pos hne] at hvd
    cases hvd
  · rw [get_virtual_desktop, if_neg hne] at hvd
    simp only [Except.ok.injEq] at hvd
    subst hvd
    intro r hr
    simp only [List.mem_map] at hr
    obtain ⟨p, hp, rfl⟩ := hr
    have hm : p.2 ∈ monitors := List.snd_mem_of_mem_enum hp
    set s := (monitors.getD pidx defaultMonitor).scale with hsdef
    refine ⟨?_, ?_, ?_, ?_⟩
    · have h1 : monitors.foldl (fun acc m => min acc m.x) 2147483647 ≤ p.2.x :=
        foldl_min_le (fun m => m.x) monitors hm 2147483647
      have h2 := rha_div_mono s hs h1
      unfold to_logical
      dsimp only
      omega
    · have h1 : monitors.foldl (fun acc m => min acc m.y) 2147483647 ≤ p.2.y :=
        foldl_min_le (fun m => m.y) monitors hm 2147483647
      have h2 := rha_div_mono s hs h1
      unfold to_logical
      dsimp only
      omega
    · have h1 : p.2.x + (p.2.width : ℤ)
          ≤ monitors.foldl (fun acc m => max acc (m.x + (m.width : ℤ))) (-2147483648) :=
        le_foldl_max (fun m => m.x + (m.width : ℤ)) monitors hm (-2147483648)
      have h2 := rha_div_pair_le s hs p.2.x (p.2.width : ℤ)
        (monitors.foldl (fun acc m => max acc (m.x + (m.width : ℤ))) (-2147483648)) h1
      unfold to_logical
      dsimp only
      omega
    · have h1 : p.2.y + (p.2.height : ℤ)
          ≤ monitors.foldl (fun acc m => max acc (m.y + (m.height : ℤ))) (-2147483648) :=
        le_foldl_max (fun m => m.y + (m.height : ℤ)) monitors hm (-2147483648)
      have h2 := rha_div_pair_le s hs p.2.y (p.2.height : ℤ)
        (monitors.foldl (fun acc m => max acc (m.y + (m.height : ℤ))) (-2147483648)) h1
      unfold to_logical
      dsimp only
      omega

/-- `get_virtual_desktop` on the two concrete 1x1 monitors under primary
scale 2 evaluates to `cexVD`. -/
theorem cexVD_spec : get_virtual_desktop [cexMonA, cexMonB] 0 = .ok cexVD := by
  rw [get_virtual_desktop, if_neg (by decide)]
  norm_num [cexMonA, cexMonB, cexVD, cexRegionA, cexRegionB, defaultMonitor,
    to_logical, rha, round_eq, get_monitor_work_area,
    List.enum, List.enumFrom, List.foldl, List.getD]

/-- C1 counterexample: on the two concrete monitors the second region has
`x + width = 2` while the virtual desktop's total width is 1 — the claimed
`x + width ≤ total width` fails. -/
theorem get_virtual_desktop_bbox_cex :
    get_virtual_desktop [cexMonA, cexMonB] 0 = .ok cexVD ∧
    cexRegionB ∈ cexVD.monitors ∧
    cexVD.width < cexRegionB.x + cexRegionB.width := by
  refine ⟨cexVD_spec, ?_, by decide⟩
  rw [show cexVD.monitors = [cexRegionA, cexRegionB] from rfl]
  exact List.mem_cons_of_mem _ (List.mem_cons_self _ _)

/-- C1 witness: the amended bound holds at the concrete overshooting
region. -/
theorem get_virtual_desktop_regions_in_bbox_witness :
    0 ≤ cexRegionB.x ∧ 0 ≤ cexRegionB.y ∧
    cexRegionB.x + cexRegionB.width ≤ cexVD.width + 1 ∧
    cexRegionB.y + cexRegionB.height ≤ cexVD.height + 1 :=
  get_virtual_desktop_regions_in_bbox [cexMonA, cexMonB] 0 cexVD cexVD_spec
    (by norm_num [cexMonA, List.getD])
    cexRegionB
    (by rw [show cexVD.monitors = [cexRegionA, cexRegionB] from rfl]
        exact List.mem_cons_of_mem _ (List.mem_cons_self _ _))

end RainyDesk
